import Mathlib

set_option maxHeartbeats 1000000

/-
Verification of the Drone_FoodFast delivery/drone microservices
(src/delivery_service/main.py and src/drone_service/main.py).

The geo kernel (calculate_distance, calculate_bearing) is embedded over ℝ
since it is pure real arithmetic; the route planner, connection manager,
movement simulator and endpoint handlers are embedded over ℚ / ℤ with
explicit Except error values standing for raised Python exceptions.
-/

/- Except carries no decidable equality instance in core; derive one so
concrete runs of the embedded handlers can be checked by evaluation. -/
deriving instance DecidableEq for Except

namespace FoodFast

/- Python-level exception values raised by the embedded code:
HTTPException(status, detail), ZeroDivisionError, ValueError, TypeError. -/
inductive ServiceError where
  | http (status : Nat) (detail : String)
  | zeroDivisionError
  | valueError
  | typeError
deriving DecidableEq

/- Python true division on rationals: raises ZeroDivisionError on a zero
denominator, otherwise exact division. -/
def pydiv (a b : ℚ) : Except ServiceError ℚ :=
  if b = 0 then Except.error ServiceError.zeroDivisionError else Except.ok (a / b)

/- math.radians -/
noncomputable def radians (x : ℝ) : ℝ := x * (Real.pi / 180)

/- math.degrees -/
noncomputable def degrees (x : ℝ) : ℝ := x * (180 / Real.pi)

/- math.atan2(y, x): the argument of the complex number x + y*i, in (-pi, pi]. -/
noncomputable def atan2 (y x : ℝ) : ℝ := Complex.arg ⟨x, y⟩

/- Python float modulo x % m for m > 0: the representative of x mod m
lying in [0, m) (sign follows the divisor). -/
noncomputable def pymodR (x m : ℝ) : ℝ := x - m * (⌊x / m⌋ : ℝ)

/- calculate_distance (haversine), lines 183-192 of delivery_service/main.py.
R = 6371; a = sin(dlat/2)^2 + cos(lat1)cos(lat2)sin(dlng/2)^2;
c = 2*asin(sqrt(a)); return R*c. -/
noncomputable def calculate_distance (lat1 lng1 lat2 lng2 : ℝ) : ℝ :=
  6371 * (2 * Real.arcsin (Real.sqrt
    (Real.sin (radians (lat2 - lat1) / 2) ^ 2 +
      Real.cos (radians lat1) * Real.cos (radians lat2) *
        Real.sin (radians (lng2 - lng1) / 2) ^ 2)))

/- calculate_bearing, lines 194-202 of delivery_service/main.py.
y = sin(dlng)cos(lat2); x = cos(lat1)sin(lat2) - sin(lat1)cos(lat2)cos(dlng);
return (degrees(atan2(y, x)) + 360) % 360. -/
noncomputable def calculate_bearing (lat1 lng1 lat2 lng2 : ℝ) : ℝ :=
  pymodR
    (degrees (atan2
        (Real.sin (radians (lng2 - lng1)) * Real.cos (radians lat2))
        (Real.cos (radians lat1) * Real.sin (radians lat2) -
          Real.sin (radians lat1) * Real.cos (radians lat2) *
            Real.cos (radians (lng2 - lng1)))) + 360)
    360

/-- C7: the great-circle distance function is symmetric, and the distance
from any coordinate to itself is 0. -/
theorem C7_distance_symm_and_diag :
    (∀ lat1 lng1 lat2 lng2 : ℝ,
      calculate_distance lat1 lng1 lat2 lng2 = calculate_distance lat2 lng2 lat1 lng1) ∧
    (∀ lat lng : ℝ, calculate_distance lat lng lat lng = 0) := by
  constructor
  · intro lat1 lng1 lat2 lng2
    have key : ∀ x y : ℝ,
        Real.sin (radians (x - y) / 2) ^ 2 = Real.sin (radians (y - x) / 2) ^ 2 := by
      intro x y
      have h : radians (x - y) = -radians (y - x) := by
        unfold radians; ring
      rw [h, neg_div, Real.sin_neg, neg_sq]
    unfold calculate_distance
    rw [key lat2 lat1, key lng2 lng1,
      mul_comm (Real.cos (radians lat1)) (Real.cos (radians lat2))]
  · intro lat lng
    unfold calculate_distance
    simp [radians]

/-- C8: calculate_bearing always returns a value in the half-open interval
[0, 360): the raw atan2 heading in degrees plus 360 is reduced modulo 360,
and the Python float modulo with positive divisor is never negative. -/
theorem C8_bearing_range :
    ∀ lat1 lng1 lat2 lng2 : ℝ,
      0 ≤ calculate_bearing lat1 lng1 lat2 lng2 ∧
      calculate_bearing lat1 lng1 lat2 lng2 < 360 := by
  have hm : ∀ r : ℝ, 0 ≤ pymodR r 360 ∧ pymodR r 360 < 360 := by
    intro r
    have h : pymodR r 360 = 360 * Int.fract (r / 360) := by
      unfold pymodR Int.fract
      field_simp
    constructor
    · rw [h]
      exact mul_nonneg (by norm_num) (Int.fract_nonneg _)
    · rw [h]
      calc 360 * Int.fract (r / 360) < 360 * 1 := by
            exact mul_lt_mul_of_pos_left (Int.fract_lt_one _) (by norm_num)
        _ = 360 := mul_one 360
  intro lat1 lng1 lat2 lng2
  exact hm _

-- ==========================================
-- ROUTE PLANNER: generate_waypoints (delivery_service/main.py lines 204-217)
-- ==========================================

/- One row of the returned waypoint dict:
{"sequence": i, "latitude": lat, "longitude": lng, "estimated_time": int((i/num_points)*60)}. -/
structure Waypoint where
  sequence : Nat
  latitude : ℚ
  longitude : ℚ
  estimated_time : ℤ
deriving DecidableEq

/- Body of one iteration of the loop in generate_waypoints:
ratio = i / num_points (ZeroDivisionError when num_points == 0);
lat = start_lat + (end_lat - start_lat) * ratio; same for lng;
estimated_time = int((i / num_points) * 60). -/
def waypointAt (start_lat start_lng end_lat end_lng : ℚ) (num_points : Nat) (i : Nat) :
    Except ServiceError Waypoint := do
  let ratio ← pydiv (i : ℚ) (num_points : ℚ)
  let t ← pydiv (i : ℚ) (num_points : ℚ)
  pure { sequence := i,
         latitude := start_lat + (end_lat - start_lat) * ratio,
         longitude := start_lng + (end_lng - start_lng) * ratio,
         estimated_time := ⌊t * 60⌋ }

/- The loop `for i in range(num_points + 1): waypoints.append(...)`,
aborting at the first raised exception. -/
def genLoop (start_lat start_lng end_lat end_lng : ℚ) (num_points : Nat) :
    List Nat → Except ServiceError (List Waypoint)
  | [] => Except.ok []
  | i :: rest => do
      let w ← waypointAt start_lat start_lng end_lat end_lng num_points i
      let ws ← genLoop start_lat start_lng end_lat end_lng num_points rest
      pure (w :: ws)

/- generate_waypoints(start_lat, start_lng, end_lat, end_lng, num_points). -/
def generate_waypoints (start_lat start_lng end_lat end_lng : ℚ) (num_points : Nat) :
    Except ServiceError (List Waypoint) :=
  genLoop start_lat start_lng end_lat end_lng num_points (List.range (num_points + 1))

/- With a nonzero point count no division fails, and every produced waypoint
is the linear interpolant at i / num_points. -/
theorem genLoop_ok (slat slng elat elng : ℚ) (n : Nat) (hn : (n : ℚ) ≠ 0)
    (l : List Nat) :
    genLoop slat slng elat elng n l =
      Except.ok (l.map fun i =>
        { sequence := i,
          latitude := slat + (elat - slat) * ((i : ℚ) / n),
          longitude := slng + (elng - slng) * ((i : ℚ) / n),
          estimated_time := ⌊((i : ℚ) / n) * 60⌋ }) := by
  induction l with
  | nil => rfl
  | cons a l ih =>
      simp [genLoop, waypointAt, pydiv, hn, ih, Bind.bind, Except.bind, Pure.pure, Except.pure]

/-- C1: for every num_points = m + 1 ≥ 1, generate_waypoints returns exactly
num_points + 1 waypoints; the sequence fields are the contiguous range
0..num_points; waypoint 0 is exactly the start coordinate with time 0;
waypoint num_points is exactly the end coordinate with time 60; and the
latitude, longitude and estimated_time of waypoint i are the linear
interpolants slat + (elat-slat)*(i/num_points) (likewise longitude) and
floor((i/num_points)*60). -/
theorem C1_generate_waypoints_spec (slat slng elat elng : ℚ) (m : Nat) :
    ∃ ws : List Waypoint,
      generate_waypoints slat slng elat elng (m + 1) = Except.ok ws ∧
      ws.length = (m + 1) + 1 ∧
      ws.map Waypoint.sequence = List.range ((m + 1) + 1) ∧
      ws.head? = some { sequence := 0, latitude := slat, longitude := slng, estimated_time := 0 } ∧
      ws.getLast? = some { sequence := m + 1, latitude := elat, longitude := elng,
                           estimated_time := 60 } ∧
      ws.map Waypoint.latitude =
        (List.range ((m + 1) + 1)).map (fun i : Nat => slat + (elat - slat) * ((i : ℚ) / (m + 1))) ∧
      ws.map Waypoint.longitude =
        (List.range ((m + 1) + 1)).map (fun i : Nat => slng + (elng - slng) * ((i : ℚ) / (m + 1))) ∧
      ws.map Waypoint.estimated_time =
        (List.range ((m + 1) + 1)).map (fun i : Nat => ⌊((i : ℚ) / (m + 1)) * 60⌋) := by
  have hn : ((m + 1 : Nat) : ℚ) ≠ 0 := Nat.cast_ne_zero.mpr (Nat.succ_ne_zero m)
  refine ⟨_, genLoop_ok slat slng elat elng (m + 1) hn (List.range ((m + 1) + 1)), ?_, ?_, ?_, ?_, ?_, ?_, ?_⟩
  · simp
  · rw [List.map_map]
    exact List.map_id (List.range ((m + 1) + 1))
  · have h2 : List.range ((m + 1) + 1) = 0 :: (List.range (m + 1)).map Nat.succ :=
      List.range_succ_eq_map ((m + 1))
    rw [h2]
    simp
  · have h2 : List.range ((m + 1) + 1) = List.range (m + 1) ++ [m + 1] :=
      List.range_succ (m + 1)
    rw [h2, List.map_append, List.map_singleton, List.getLast?_concat]
    have h3 : ((m + 1 : Nat) : ℚ) / ((m + 1 : Nat) : ℚ) = 1 := div_self hn
    rw [h3]
    refine congrArg some ?_
    simp only [Waypoint.mk.injEq]
    refine ⟨trivial, by ring, by ring, by norm_num⟩
  · rw [List.map_map]
    refine List.map_congr_left ?_
    intro i hi
    simp only [Function.comp_apply]
    push_cast
    ring_nf
  · rw [List.map_map]
    refine List.map_congr_left ?_
    intro i hi
    simp only [Function.comp_apply]
    push_cast
    ring_nf
  · rw [List.map_map]
    refine List.map_congr_left ?_
    intro i hi
    simp only [Function.comp_apply]
    push_cast
    ring_nf

/-- C6 counterexample: calling generate_waypoints with num_points = 0 raises
ZeroDivisionError (from the first iteration computing 0 / 0), not a
validation error: there is no input validation in the function. -/
theorem C6_counterexample :
    generate_waypoints 0 0 1 1 0 = Except.error ServiceError.zeroDivisionError := by
  rfl

/-- C6 amended: for every pair of coordinates, generate_waypoints with
num_points = 0 fails with ZeroDivisionError — the ratio i / num_points in
the first loop iteration divides by zero; no validation error is raised and
no validation of num_points is performed. -/
theorem C6_amended (slat slng elat elng : ℚ) :
    generate_waypoints slat slng elat elng 0 =
      Except.error ServiceError.zeroDivisionError := by
  simp [generate_waypoints, genLoop, waypointAt, pydiv, Bind.bind, Except.bind]

-- ==========================================
-- WEBSOCKET CONNECTION MANAGER (delivery_service/main.py lines 222-244)
-- ==========================================

/- A WebSocket connection handle. -/
abbrev Conn := Nat

/- ConnectionManager.active_connections: dict[int, List[WebSocket]],
modelled as an association list keyed by order_id. -/
structure ConnectionManager where
  active_connections : List (ℤ × List Conn)
deriving DecidableEq

/- Dictionary lookup active_connections.get(order_id). -/
def lookupConns (m : ConnectionManager) (oid : ℤ) : Option (List Conn) :=
  (m.active_connections.find? (fun p => p.1 == oid)).map Prod.snd

/- Dictionary write active_connections[order_id] = l (key assumed present). -/
def setConns (m : ConnectionManager) (oid : ℤ) (l : List Conn) : ConnectionManager :=
  ⟨m.active_connections.map (fun p => if p.1 == oid then (p.1, l) else p)⟩

/- ConnectionManager.connect: if order_id not in the dict, insert an empty
list, then append the websocket. -/
def connect (m : ConnectionManager) (ws : Conn) (oid : ℤ) : ConnectionManager :=
  match lookupConns m oid with
  | none => ⟨m.active_connections ++ [(oid, [ws])]⟩
  | some l => setConns m oid (l ++ [ws])

/- ConnectionManager.disconnect (lines 232-234): when order_id is a key,
Python list.remove(websocket) removes the first occurrence and raises
ValueError when the websocket is not in the list; when order_id is not a
key, nothing happens. -/
def disconnect (m : ConnectionManager) (ws : Conn) (oid : ℤ) :
    Except ServiceError ConnectionManager :=
  match lookupConns m oid with
  | none => Except.ok m
  | some conns =>
      if ws ∈ conns then Except.ok (setConns m oid (conns.erase ws))
      else Except.error ServiceError.valueError

/- Whether an attempted send on a connection succeeded; the send outcome of
each live connection is an oracle parameter. -/
def sendOk (r : Except ServiceError Unit) : Bool :=
  match r with
  | Except.ok _ => true
  | Except.error _ => false

/- The loop body of ConnectionManager.broadcast: try send_json; a raised
exception is swallowed and the loop continues with the next connection.
Returns the connections that actually received the message. -/
def broadcastLoop (send : Conn → Except ServiceError Unit) : List Conn → List Conn
  | [] => []
  | c :: rest =>
      match send c with
      | Except.ok _ => c :: broadcastLoop send rest
      | Except.error _ => broadcastLoop send rest

/- ConnectionManager.broadcast (lines 236-242): iterate over the
connections registered for order_id, if any. -/
def broadcast (m : ConnectionManager) (oid : ℤ)
    (send : Conn → Except ServiceError Unit) : List Conn :=
  match lookupConns m oid with
  | none => []
  | some conns => broadcastLoop send conns

theorem broadcastLoop_eq_filter (send : Conn → Except ServiceError Unit) (l : List Conn) :
    broadcastLoop send l = l.filter (fun c => sendOk (send c)) := by
  induction l with
  | nil => rfl
  | cons c rest ih =>
      cases h : send c with
      | ok u => simp [broadcastLoop, List.filter, h, ih, sendOk]
      | error e => simp [broadcastLoop, List.filter, h, ih, sendOk]

/-- C4: broadcast is a total function (a raised send error never escapes to
the caller); with no registered subscribers for the order_id it is a no-op
returning nothing; and with registered connections it delivers to exactly
the connections whose individual send succeeds, so one failing connection
never prevents delivery to every other registered connection. -/
theorem C4_broadcast_best_effort (m : ConnectionManager) (oid : ℤ)
    (send : Conn → Except ServiceError Unit) :
    (lookupConns m oid = none → broadcast m oid send = []) ∧
    (∀ conns, lookupConns m oid = some conns →
      broadcast m oid send = conns.filter (fun c => sendOk (send c)) ∧
      ∀ c, c ∈ conns → sendOk (send c) = true → c ∈ broadcast m oid send) := by
  constructor
  · intro h
    unfold broadcast
    rw [h]
  · intro conns h
    have hb : broadcast m oid send = conns.filter (fun c => sendOk (send c)) := by
      unfold broadcast
      rw [h]
      exact broadcastLoop_eq_filter send conns
    refine ⟨hb, ?_⟩
    intro c hc hok
    rw [hb]
    exact List.mem_filter.mpr ⟨hc, hok⟩

/-- C4 witness: in a registry where order 5 has subscribers 1, 2, 3 and the
send to 2 fails, broadcast still delivers to 1 and 3; broadcasting to the
unknown order 9 is a no-op. -/
theorem C4_broadcast_best_effort_witness :
    broadcast ⟨[((5 : ℤ), [1, 2, 3])]⟩ 5
      (fun c => if c = 2 then Except.error ServiceError.valueError else Except.ok ()) = [1, 3] ∧
    broadcast ⟨[((5 : ℤ), [1, 2, 3])]⟩ 9
      (fun _ => Except.ok ()) = [] := by
  constructor
  · have h := (C4_broadcast_best_effort ⟨[((5 : ℤ), [1, 2, 3])]⟩ 5
      (fun c => if c = 2 then Except.error ServiceError.valueError else Except.ok ())).2
        [1, 2, 3] (by rfl)
    exact h.1.trans (by decide)
  · exact (C4_broadcast_best_effort ⟨[((5 : ℤ), [1, 2, 3])]⟩ 9 (fun _ => Except.ok ())).1 (by rfl)

/-- C5 counterexample: disconnect is not idempotent. Starting from an empty
registry, order 1 gains subscriber 7; the first disconnect removes it and
leaves the (now empty) list for key 1 in place; the second disconnect of
the same already-removed connection reaches list.remove on a list not
containing it and raises ValueError instead of being a no-op. -/
theorem C5_counterexample :
    connect ⟨[]⟩ 7 1 = ⟨[((1 : ℤ), [7])]⟩ ∧
    disconnect ⟨[((1 : ℤ), [7])]⟩ 7 1 = Except.ok ⟨[((1 : ℤ), [])]⟩ ∧
    disconnect ⟨[((1 : ℤ), [])]⟩ 7 1 = Except.error ServiceError.valueError := by
  refine ⟨rfl, rfl, rfl⟩

/-- C5 amended: disconnect is a no-op (with no error) only when the
order_id has no entry in the registry; when an entry exists and contains
the websocket, the first occurrence is removed; when an entry exists but
does not contain the websocket (already removed or never subscribed), a
ValueError is raised — so removal of an already-removed connection whose
order key is still present is an error, not a no-op. -/
theorem C5_disconnect_behavior (m : ConnectionManager) (ws : Conn) (oid : ℤ) :
    (lookupConns m oid = none → disconnect m ws oid = Except.ok m) ∧
    (∀ conns, lookupConns m oid = some conns →
      (ws ∈ conns → disconnect m ws oid = Except.ok (setConns m oid (conns.erase ws))) ∧
      (ws ∉ conns → disconnect m ws oid = Except.error ServiceError.valueError)) := by
  constructor
  · intro h
    unfold disconnect
    rw [h]
  · intro conns h
    constructor
    · intro hmem
      unfold disconnect
      rw [h]
      simp [hmem]
    · intro hmem
      unfold disconnect
      rw [h]
      simp [hmem]

/-- C5 amended witness: concrete instances of all three branches of the
disconnect behavior. -/
theorem C5_disconnect_behavior_witness :
    disconnect ⟨[((1 : ℤ), [7])]⟩ 9 2 = Except.ok ⟨[((1 : ℤ), [7])]⟩ ∧
    disconnect ⟨[((1 : ℤ), [7, 8])]⟩ 7 1 = Except.ok ⟨[((1 : ℤ), [8])]⟩ ∧
    disconnect ⟨[((1 : ℤ), [8])]⟩ 7 1 = Except.error ServiceError.valueError := by
  refine ⟨?_, ?_, ?_⟩
  · exact (C5_disconnect_behavior ⟨[((1 : ℤ), [7])]⟩ 9 2).1 (by rfl)
  · exact (((C5_disconnect_behavior ⟨[((1 : ℤ), [7, 8])]⟩ 7 1).2 [7, 8] (by rfl)).1
      (by decide)).trans (by rfl)
  · exact ((C5_disconnect_behavior ⟨[((1 : ℤ), [8])]⟩ 7 1).2 [8] (by rfl)).2 (by decide)

-- ==========================================
-- MOVEMENT SIMULATOR: simulate_drone_movement (delivery_service/main.py lines 511-549)
-- ==========================================

/- A stored route waypoint as consumed by the simulator (only latitude and
longitude are read). -/
structure SimWaypoint where
  latitude : ℚ
  longitude : ℚ
deriving DecidableEq

/- One row persisted into delivery_tracking by the simulator loop. -/
structure PositionSample where
  order_id : ℤ
  drone_id : ℤ
  latitude : ℚ
  longitude : ℚ
  altitude : ℚ
  speed : ℚ
  battery_level : ℚ
  status : String
deriving DecidableEq

/- One message broadcast over the WebSocket channel by the simulator loop. -/
structure BroadcastEvent where
  order_id : ℤ
  drone_id : ℤ
  latitude : ℚ
  longitude : ℚ
  altitude : ℚ
  speed : ℚ
  battery_level : ℚ
  status : String
  waypoint : Nat
  total_waypoints : Nat
deriving DecidableEq

/- The DeliveryTracking row built at loop index i (battery is the value
before the post-step decrement): altitude = 50 + (i % 10),
speed = 25 + (i % 15), status = "in_flight" if i < len(waypoints)-1 else
"landing". -/
def sampleAt (oid did : ℤ) (total i : Nat) (battery : ℚ) (wp : SimWaypoint) :
    PositionSample :=
  { order_id := oid, drone_id := did,
    latitude := wp.latitude, longitude := wp.longitude,
    altitude := 50 + ((i % 10 : Nat) : ℚ),
    speed := 25 + ((i % 15 : Nat) : ℚ),
    battery_level := battery,
    status := if i < total - 1 then "in_flight" else "landing" }

/- The broadcast message built at loop index i: the same fields plus
"waypoint": i + 1 and "total_waypoints": len(waypoints). -/
def eventAt (oid did : ℤ) (total i : Nat) (battery : ℚ) (wp : SimWaypoint) :
    BroadcastEvent :=
  { order_id := oid, drone_id := did,
    latitude := wp.latitude, longitude := wp.longitude,
    altitude := 50 + ((i % 10 : Nat) : ℚ),
    speed := 25 + ((i % 15 : Nat) : ℚ),
    battery_level := battery,
    status := if i < total - 1 then "in_flight" else "landing",
    waypoint := i + 1,
    total_waypoints := total }

/- The `for i, waypoint in enumerate(waypoints)` loop: at each step persist
one tracking row, then broadcast one event, then decrement battery by 0.5;
returns the persisted rows and the broadcast events in emission order. -/
def simLoop (oid did : ℤ) (total : Nat) :
    Nat → ℚ → List SimWaypoint → List PositionSample × List BroadcastEvent
  | _, _, [] => ([], [])
  | i, battery, wp :: rest =>
      let tail := simLoop oid did total (i + 1) (battery - 1/2) rest
      (sampleAt oid did total i battery wp :: tail.1,
       eventAt oid did total i battery wp :: tail.2)

/- simulate_drone_movement(order_id, drone_id, waypoints, db): the loop
starts at index 0 with battery = 100.0. -/
def simulate_drone_movement (oid did : ℤ) (waypoints : List SimWaypoint) :
    List PositionSample × List BroadcastEvent :=
  simLoop oid did waypoints.length 0 100 waypoints

theorem simLoop_fst_length (oid did : ℤ) (total : Nat) (l : List SimWaypoint) :
    ∀ (i0 : Nat) (b0 : ℚ), (simLoop oid did total i0 b0 l).1.length = l.length := by
  induction l with
  | nil => intro i0 b0; rfl
  | cons wp rest ih => intro i0 b0; simp [simLoop, ih]

theorem simLoop_snd_length (oid did : ℤ) (total : Nat) (l : List SimWaypoint) :
    ∀ (i0 : Nat) (b0 : ℚ), (simLoop oid did total i0 b0 l).2.length = l.length := by
  induction l with
  | nil => intro i0 b0; rfl
  | cons wp rest ih => intro i0 b0; simp [simLoop, ih]

theorem simLoop_fst_get? (oid did : ℤ) (total : Nat) (l : List SimWaypoint) :
    ∀ (i0 : Nat) (b0 : ℚ) (k : Nat),
      (simLoop oid did total i0 b0 l).1.get? k =
        (l.get? k).map (fun wp => sampleAt oid did total (i0 + k) (b0 - (k : ℚ) / 2) wp) := by
  induction l with
  | nil => intro i0 b0 k; cases k <;> rfl
  | cons wp rest ih =>
      intro i0 b0 k
      cases k with
      | zero => simp [simLoop]
      | succ k =>
          have h1 : i0 + 1 + k = i0 + (k + 1) := by omega
          have h2 : b0 - 1/2 - (k : ℚ) / 2 = b0 - ((k + 1 : Nat) : ℚ) / 2 := by
            push_cast
            ring
          simp only [simLoop, List.get?_cons_succ, ih (i0 + 1) (b0 - 1/2) k, h1, h2]

theorem simLoop_snd_get? (oid did : ℤ) (total : Nat) (l : List SimWaypoint) :
    ∀ (i0 : Nat) (b0 : ℚ) (k : Nat),
      (simLoop oid did total i0 b0 l).2.get? k =
        (l.get? k).map (fun wp => eventAt oid did total (i0 + k) (b0 - (k : ℚ) / 2) wp) := by
  induction l with
  | nil => intro i0 b0 k; cases k <;> rfl
  | cons wp rest ih =>
      intro i0 b0 k
      cases k with
      | zero => simp [simLoop]
      | succ k =>
          have h1 : i0 + 1 + k = i0 + (k + 1) := by omega
          have h2 : b0 - 1/2 - (k : ℚ) / 2 = b0 - ((k + 1 : Nat) : ℚ) / 2 := by
            push_cast
            ring
          simp only [simLoop, List.get?_cons_succ, ih (i0 + 1) (b0 - 1/2) k, h1, h2]

/-- C2: a simulator run over a waypoint sequence of length n+1 produces
exactly n+1 persisted PositionSamples and exactly n+1 broadcast events; the
k-th event carries waypoint index k+1, so the events are in strictly
increasing waypoint-index order; and the k-th persisted sample has
battery_level = 100 - 0.5*k, altitude = 50 + (k mod 10),
speed = 25 + (k mod 15), and status "in_flight" for k < n and "landing"
for k = n. -/
theorem C2_simulator_run (oid did : ℤ) (ws : List SimWaypoint) (n : Nat)
    (h : ws.length = n + 1) :
    (simulate_drone_movement oid did ws).1.length = n + 1 ∧
    (simulate_drone_movement oid did ws).2.length = n + 1 ∧
    (∀ k, ((simulate_drone_movement oid did ws).2.get? k).map BroadcastEvent.waypoint =
      if k < n + 1 then some (k + 1) else none) ∧
    (∀ k wp, ws.get? k = some wp →
      (simulate_drone_movement oid did ws).1.get? k =
        some { order_id := oid, drone_id := did,
               latitude := wp.latitude, longitude := wp.longitude,
               altitude := 50 + ((k % 10 : Nat) : ℚ),
               speed := 25 + ((k % 15 : Nat) : ℚ),
               battery_level := 100 - (k : ℚ) / 2,
               status := if k < n then "in_flight" else "landing" }) := by
  refine ⟨?_, ?_, ?_, ?_⟩
  · rw [simulate_drone_movement, simLoop_fst_length, h]
  · rw [simulate_drone_movement, simLoop_snd_length, h]
  · intro k
    rw [simulate_drone_movement, simLoop_snd_get? oid did ws.length ws 0 100 k]
    by_cases hk : k < n + 1
    · obtain ⟨wp, hwp⟩ : ∃ wp, ws.get? k = some wp :=
        ⟨ws.get ⟨k, by omega⟩, List.get?_eq_get (by omega)⟩
      rw [hwp]
      simp [eventAt, hk]
    · have hnone : ws.get? k = none := List.get?_eq_none.mpr (by omega)
      rw [hnone]
      simp [hk]
  · intro k wp hwp
    obtain ⟨hlt, -⟩ := List.get?_eq_some.mp hwp
    rw [simulate_drone_movement, simLoop_fst_get? oid did ws.length ws 0 100 k, hwp]
    have htot : ws.length - 1 = n := by omega
    simp [sampleAt, htot]

-- ==========================================
-- START_TRACKING PERSISTENCE (delivery_service/main.py lines 256-324)
-- ==========================================

/- One row of the delivery_routes table. -/
structure RouteRow where
  order_id : ℤ
  drone_id : ℤ
  waypoint_sequence : Nat
  latitude : ℚ
  longitude : ℚ
  estimated_time : ℤ
deriving DecidableEq

/- The committed (externally observable) database contents: the
delivery_routes table and the delivery_tracking table. -/
structure Store where
  routes : List RouteRow
  tracking : List PositionSample
deriving DecidableEq

/- A SQLAlchemy session: committed store plus rows added but not yet
committed (pending rows are invisible to other sessions until commit). -/
structure DBSession where
  committed : Store
  pendingRoutes : List RouteRow
  pendingTracking : List PositionSample
deriving DecidableEq

/- The db operations performed by start_tracking: db.add(DeliveryRoute...),
db.add(DeliveryTracking...), db.commit(). -/
inductive DBOp where
  | addRoute (r : RouteRow)
  | addTracking (t : PositionSample)
  | commit
deriving DecidableEq

def applyOp (s : DBSession) : DBOp → DBSession
  | DBOp.addRoute r => { s with pendingRoutes := s.pendingRoutes ++ [r] }
  | DBOp.addTracking t => { s with pendingTracking := s.pendingTracking ++ [t] }
  | DBOp.commit =>
      { committed := { routes := s.committed.routes ++ s.pendingRoutes,
                       tracking := s.committed.tracking ++ s.pendingTracking },
        pendingRoutes := [], pendingTracking := [] }

/- The sequence of committed stores observable to other sessions before,
between and after each operation (the store after a prefix of k operations
is what a concurrent reader sees at that point, and what remains if the
run dies before operation k+1). -/
def committedTrace (s : DBSession) : List DBOp → List Store
  | [] => [s.committed]
  | op :: ops => s.committed :: committedTrace (applyOp s op) ops

/- An initially empty session. -/
def initSession : DBSession := ⟨⟨[], []⟩, [], []⟩

/- The DeliveryRoute rows built by start_tracking from
generate_waypoints(start, end, num_points=15). -/
def startTrackingRouteRows (oid did : ℤ) (slat slng elat elng : ℚ) : List RouteRow :=
  match generate_waypoints slat slng elat elng 15 with
  | Except.ok ws => ws.map (fun w =>
      { order_id := oid, drone_id := did, waypoint_sequence := w.sequence,
        latitude := w.latitude, longitude := w.longitude,
        estimated_time := w.estimated_time })
  | Except.error _ => []

/- The initial DeliveryTracking row written by start_tracking: position =
the start coordinate, altitude 0, speed 0, battery from the order (default
100), status "taking_off". -/
def initial_tracking_row (oid did : ℤ) (slat slng battery : ℚ) : PositionSample :=
  { order_id := oid, drone_id := did, latitude := slat, longitude := slng,
    altitude := 0, speed := 0, battery_level := battery, status := "taking_off" }

/- The database operations issued by start_tracking, in program order
(lines 292-317): add every waypoint row, commit, add the initial tracking
row, commit again. -/
def start_tracking_ops (oid did : ℤ) (slat slng elat elng battery : ℚ) : List DBOp :=
  (startTrackingRouteRows oid did slat slng elat elng).map DBOp.addRoute
    ++ [DBOp.commit,
        DBOp.addTracking (initial_tracking_row oid did slat slng battery),
        DBOp.commit]

theorem committedTrace_addRoutes (rs : List RouteRow) :
    ∀ (s : DBSession) (ops : List DBOp),
      committedTrace s (rs.map DBOp.addRoute ++ ops) =
        List.replicate rs.length s.committed ++
          committedTrace { s with pendingRoutes := s.pendingRoutes ++ rs } ops := by
  induction rs with
  | nil => intro s ops; simp [committedTrace]
  | cons r rs ih =>
      intro s ops
      simp only [List.map_cons, List.cons_append, committedTrace, applyOp,
        List.length_cons, List.replicate_succ, List.append_eq]
      rw [ih]
      simp [List.append_assoc]

/-- C3 counterexample: running the persistence steps of start_tracking for
order 42, drone 7, from the empty store: the committed-store trace has 20
entries; entry 17 — the state left standing if the run stops after the
first commit, and the state a concurrent reader sees between the two
commits — holds all 16 route waypoints while the tracking table is still
empty. So the waypoints and the initial PositionSample are NOT persisted as
one atomic unit, and a failure of the second commit leaves the store
changed (waypoints only). -/
theorem C3_counterexample :
    (committedTrace initSession (start_tracking_ops 42 7 0 0 1 1 100)).length = 20 ∧
    ((committedTrace initSession (start_tracking_ops 42 7 0 0 1 1 100)).get? 17).map
      (fun st => st.routes.length) = some 16 ∧
    ((committedTrace initSession (start_tracking_ops 42 7 0 0 1 1 100)).get? 17).map
      Store.tracking = some [] ∧
    ((committedTrace initSession (start_tracking_ops 42 7 0 0 1 1 100)).get? 19).map
      (fun st => st.tracking.length) = some 1 := by
  refine ⟨by decide, by decide, by decide, by decide⟩

/-- C3 amended: the waypoint rows themselves are committed atomically — in
every observable committed state the delivery_routes table is either empty
or holds the full 16-row waypoint list, never a proper prefix — but the
initial PositionSample is committed by a second, separate commit: the state
with all waypoints and no initial tracking row is observable between the
two commits (and is what remains if the second commit never runs). -/
theorem C3_start_tracking_commits (oid did : ℤ) (slat slng elat elng battery : ℚ) :
    ∀ st ∈ committedTrace initSession (start_tracking_ops oid did slat slng elat elng battery),
      (st.routes = [] ∧ st.tracking = []) ∨
      (st.routes = startTrackingRouteRows oid did slat slng elat elng ∧ st.tracking = []) ∨
      (st.routes = startTrackingRouteRows oid did slat slng elat elng ∧
       st.tracking = [initial_tracking_row oid did slat slng battery]) := by
  intro st hst
  rw [start_tracking_ops, committedTrace_addRoutes] at hst
  simp only [committedTrace, applyOp, initSession, List.mem_append, List.mem_replicate,
    List.mem_cons, List.mem_singleton, List.not_mem_nil] at hst
  rcases hst with ⟨-, h⟩ | h | h | h | h
  · subst h; left; exact ⟨rfl, rfl⟩
  · subst h; left; exact ⟨rfl, rfl⟩
  · subst h; right; left; exact ⟨by simp, by simp⟩
  · subst h; right; left; exact ⟨by simp, by simp⟩
  · rcases h with h | h
    · subst h; right; right; exact ⟨by simp, by simp⟩
    · exact absurd h (by simp)

/-- C3 amended witness: the empty store is the head of the committed trace
for a concrete run and satisfies the amended disjunction. -/
theorem C3_start_tracking_commits_witness :
    ((⟨[], []⟩ : Store).routes = [] ∧ (⟨[], []⟩ : Store).tracking = []) ∨
    ((⟨[], []⟩ : Store).routes = startTrackingRouteRows 1 2 0 0 0 0 ∧
     (⟨[], []⟩ : Store).tracking = []) ∨
    ((⟨[], []⟩ : Store).routes = startTrackingRouteRows 1 2 0 0 0 0 ∧
     (⟨[], []⟩ : Store).tracking = [initial_tracking_row 1 2 0 0 100]) := by
  exact C3_start_tracking_commits 1 2 0 0 0 0 100 ⟨[], []⟩ (by decide)

-- ==========================================
-- ENDPOINT HANDLERS AND COLLABORATORS
-- (delivery_service/main.py lines 168-181, 256-324, 381-434;
--  drone_service/main.py lines 246-259, 519-555, 559-601)
-- ==========================================

/- The parsed JSON body returned by GET /orders/{order_id} on the order
service; every field is obtained with dict.get and may be absent. -/
structure OrderJson where
  drone_id : Option ℤ
  restaurant_lat : Option ℚ
  restaurant_lng : Option ℚ
  delivery_lat : Option ℚ
  delivery_lng : Option ℚ
  battery_level : Option ℚ
deriving DecidableEq

/- The parsed JSON body returned by the user service for a valid token. -/
structure UserJson where
  role : Option String
  user_id : Option ℤ
deriving DecidableEq

/- Outcome of the httpx GET to the order service: a transport error, or a
response with a status code and parsed body. -/
inductive OrderServiceResult where
  | netError
  | response (status : Nat) (body : OrderJson)
deriving DecidableEq

/- Python exceptions that can escape the body of the `try` around the
order lookup. -/
inductive LookupExc where
  | httpExc (status : Nat) (detail : String)
  | transportError
deriving DecidableEq

/- The body of the `try` in start_tracking (lines 270-276) and in
update_position (lines 397-401): perform the GET; on a non-200 status
raise HTTPException(404, "Order not found"); otherwise parse the body. -/
def order_lookup_body : OrderServiceResult → Except LookupExc OrderJson
  | OrderServiceResult.netError => Except.error LookupExc.transportError
  | OrderServiceResult.response status body =>
      if status ≠ 200 then Except.error (LookupExc.httpExc 404 ("Order not found"))
      else Except.ok body

/- The whole try/except block: the bare `except:` catches every exception
raised in the body — the HTTPException(404) included — and raises
HTTPException(503, "Order service unavailable") instead. -/
def fetch_order (r : OrderServiceResult) : Except ServiceError OrderJson :=
  match order_lookup_body r with
  | Except.ok o => Except.ok o
  | Except.error _ => Except.error (ServiceError.http 503 ("Order service unavailable"))

/- The Authorization header of a request, as discriminated by
verify_token: absent; present but not starting with the scheme
"Bearer "; or "Bearer <token>" carrying the token text after the space. -/
inductive AuthHeader where
  | missing
  | malformed (raw : String)
  | bearer (token : String)
deriving DecidableEq

/- verify_token (delivery_service lines 168-181, drone_service lines
246-259): a missing header or one without the bearer scheme raises
HTTPException(401, "Not authenticated"); otherwise the token is sent to
the user service, whose answer is None on a non-200 response or network
error (the oracle userService returns the parsed identity or none). -/
def verify_token (authorization : AuthHeader)
    (userService : String → Option UserJson) :
    Except ServiceError (Option UserJson) :=
  match authorization with
  | AuthHeader.missing => Except.error (ServiceError.http 401 ("Not authenticated"))
  | AuthHeader.malformed _ => Except.error (ServiceError.http 401 ("Not authenticated"))
  | AuthHeader.bearer token => Except.ok (userService token)

/- start_tracking (lines 256-324): verify the token (401 on failure /
invalid token), fetch the order (404 swallowed into 503), reject a falsy
drone_id with 400, then build the 16 waypoints and run the database
operations of start_tracking_ops (add waypoints, commit, add the initial
tracking row, commit); returns the final session, the drone id and the
waypoint count. -/
def start_tracking (authorization : AuthHeader)
    (userService : String → Option UserJson)
    (orderService : OrderServiceResult) (sess : DBSession) (oid : ℤ) :
    Except ServiceError (DBSession × ℤ × Nat) :=
  match verify_token authorization userService with
  | Except.error e => Except.error e
  | Except.ok none => Except.error (ServiceError.http 401 ("Invalid token"))
  | Except.ok (some _) =>
      match fetch_order orderService with
      | Except.error e => Except.error e
      | Except.ok order =>
          match order.drone_id with
          | none => Except.error (ServiceError.http 400 ("No drone assigned to this order"))
          | some did =>
              if did = 0 then
                Except.error (ServiceError.http 400 ("No drone assigned to this order"))
              else
                let slat := order.restaurant_lat.getD (10762622 / 1000000)
                let slng := order.restaurant_lng.getD (106660172 / 1000000)
                let elat := order.delivery_lat.getD (10775845 / 1000000)
                let elng := order.delivery_lng.getD (106701758 / 1000000)
                let battery := order.battery_level.getD 100
                Except.ok
                  ((start_tracking_ops oid did slat slng elat elng battery).foldl applyOp sess,
                   did,
                   (startTrackingRouteRows oid did slat slng elat elng).length)

/- One row written into delivery_tracking by update_position; drone_id is
order.get("drone_id") and may be absent. -/
structure TrackingRow where
  order_id : ℤ
  drone_id : Option ℤ
  latitude : ℚ
  longitude : ℚ
  altitude : ℚ
  speed : ℚ
  battery_level : Option ℚ
  status : Option String
deriving DecidableEq

/- update_position (lines 381-434): NO verify_token call — the handler
declares no Authorization header, so any request reaches it; fetch the
order (404 swallowed into 503), persist one tracking row, then broadcast
the position to the subscribers of the order. -/
def update_position (orderService : OrderServiceResult)
    (db : List TrackingRow) (mgr : ConnectionManager)
    (send : Conn → Except ServiceError Unit)
    (oid : ℤ) (latitude longitude altitude speed : ℚ)
    (battery_level : Option ℚ) (status : Option String) :
    Except ServiceError (List TrackingRow × List Conn × String) :=
  match fetch_order orderService with
  | Except.error e => Except.error e
  | Except.ok order =>
      Except.ok
        (db ++ [{ order_id := oid, drone_id := order.drone_id,
                  latitude := latitude, longitude := longitude,
                  altitude := altitude, speed := speed,
                  battery_level := battery_level, status := status }],
         broadcast mgr oid send,
         "Position updated")

/- A concrete order-service body used by concrete instantiations below. -/
def exampleOrder : OrderJson :=
  { drone_id := some 3, restaurant_lat := none, restaurant_lng := none,
    delivery_lat := none, delivery_lng := none, battery_level := none }

/- A concrete user-service oracle accepting every token as an admin. -/
def exampleUserService : String → Option UserJson :=
  fun _ => some { role := some ("admin"), user_id := some 1 }

/-- C10: whenever the order-service lookup returns a non-200 response, the
HTTPException(404, "Order not found") raised inside the try block is caught
by the surrounding bare except handler, so both start_tracking (with a
valid token) and update_position fail with 503 "Order service unavailable";
a 404 for the missing order is never returned from these endpoints. -/
theorem C10_bare_except_swallows_404 (status : Nat) (body : OrderJson)
    (h : status ≠ 200)
    (auth : AuthHeader) (us : String → Option UserJson) (u : UserJson)
    (hv : verify_token auth us = Except.ok (some u))
    (sess : DBSession) (oid : ℤ)
    (tdb : List TrackingRow) (mgr : ConnectionManager)
    (send : Conn → Except ServiceError Unit)
    (lat lng alt spd : ℚ) (bl : Option ℚ) (st : Option String) :
    order_lookup_body (OrderServiceResult.response status body) =
      Except.error (LookupExc.httpExc 404 ("Order not found")) ∧
    fetch_order (OrderServiceResult.response status body) =
      Except.error (ServiceError.http 503 ("Order service unavailable")) ∧
    (∀ detail, fetch_order (OrderServiceResult.response status body) ≠
      Except.error (ServiceError.http 404 detail)) ∧
    start_tracking auth us (OrderServiceResult.response status body) sess oid =
      Except.error (ServiceError.http 503 ("Order service unavailable")) ∧
    update_position (OrderServiceResult.response status body) tdb mgr send oid
        lat lng alt spd bl st =
      Except.error (ServiceError.http 503 ("Order service unavailable")) := by
  have h1 : order_lookup_body (OrderServiceResult.response status body) =
      Except.error (LookupExc.httpExc 404 ("Order not found")) := by
    simp [order_lookup_body, h]
  have h2 : fetch_order (OrderServiceResult.response status body) =
      Except.error (ServiceError.http 503 ("Order service unavailable")) := by
    unfold fetch_order
    rw [h1]
  refine ⟨h1, h2, ?_, ?_, ?_⟩
  · intro detail
    rw [h2]
    simp
  · simp only [start_tracking, hv, h2]
  · simp only [update_position, h2]

/-- C10 witness: a concrete non-200 order lookup (status 500) makes both
endpoints answer 503, with a valid bearer token for start_tracking. -/
theorem C10_bare_except_swallows_404_witness :
    fetch_order (OrderServiceResult.response 500 exampleOrder) =
      Except.error (ServiceError.http 503 ("Order service unavailable")) ∧
    start_tracking (AuthHeader.bearer ("tok")) exampleUserService
        (OrderServiceResult.response 500 exampleOrder) initSession 42 =
      Except.error (ServiceError.http 503 ("Order service unavailable")) := by
  have h := C10_bare_except_swallows_404 500 exampleOrder (by decide)
    (AuthHeader.bearer ("tok")) exampleUserService
    { role := some ("admin"), user_id := some 1 }
    (by rfl)
    initSession 42 [] ⟨[]⟩ (fun _ => Except.ok ()) 0 0 0 0 none none
  exact ⟨h.2.1, h.2.2.2.1⟩

/-- C2 witness: a concrete two-waypoint run — two samples, the second
(index 1) with battery 99.5, altitude 51, speed 26 and status "landing",
and the first broadcast event carrying waypoint index 1. -/
theorem C2_simulator_run_witness :
    (simulate_drone_movement 1 2 [⟨0, 0⟩, ⟨3, 4⟩]).1.length = 2 ∧
    (simulate_drone_movement 1 2 [⟨0, 0⟩, ⟨3, 4⟩]).1.get? 1 =
      some { order_id := 1, drone_id := 2, latitude := 3, longitude := 4,
             altitude := 50 + ((1 % 10 : Nat) : ℚ), speed := 25 + ((1 % 15 : Nat) : ℚ),
             battery_level := 100 - (1 : ℚ) / 2,
             status := if 1 < 1 then "in_flight" else "landing" } ∧
    ((simulate_drone_movement 1 2 [⟨0, 0⟩, ⟨3, 4⟩]).2.get? 0).map BroadcastEvent.waypoint =
      (if 0 < 1 + 1 then some (0 + 1) else none) := by
  have h := C2_simulator_run 1 2 [⟨0, 0⟩, ⟨3, 4⟩] 1 (by rfl)
  exact ⟨h.1, h.2.2.2 1 ⟨3, 4⟩ (by rfl), h.2.2.1 0⟩

end FoodFast
